import Mathlib

/-!
Shallow embedding of `src/DarkSearch.py` (baegmon/DarkSearch) and proofs about
its dispatch, worker loop, proxy pool accounting, and shutdown behaviour.

Modelling conventions:
* Python ints are `Int` (page numbers) or `Nat` (counters, HTTP status codes).
* The JSON body of a response is a record of `Option` fields, mirroring
  `content.get(key, default)`; a missing key is `none`.
* A fallible network call is an explicit `NetOutcome` input: either a response
  with a status code and parsed body, or `raiseErr` for `requests.get` (or
  `response.json()`) raising, which lands in the generic `except Exception`.
* `response.status_code is 429` compares with CPython object identity; it is
  modelled charitably as numeric equality (the branch is dead either way,
  because `raise_for_status()` runs first and raises `HTTPError` on 429).
* The worker thread's externally set `kill_received` flag is modelled as a
  schedule `kill : Nat -> Bool` giving the flag's value at the n-th loop-head
  check; the worker itself never writes the flag in the source (it is written
  only in `__init__` and by `main`), so the model gives the worker no way to
  write it.
* `time.sleep(1)` (line 208) is observable as the `Bool` component returned by
  `runIteration`; it is reached on every path through the loop body.
-/

namespace DarkSearch

/-- Module-level constant `NUMBER_OF_THREADS = 5` (line 22). -/
def NUMBER_OF_THREADS : Nat := 5

/-- Module-level constant `PROXY_FAIL_LIMIT = 10` (line 21). -/
def PROXY_FAIL_LIMIT : Nat := 10

/-- `class Result` (lines 45-49): one parsed upstream record. The raw dict's
`title` / `link` / `description` values are modelled as strings (the source
projects them with `r.get(...)` and stores them unexamined). -/
structure Result where
  title : String
  link : String
  description : String
  deriving DecidableEq

/-- The parsed JSON body of a `search` response. Each field mirrors a
`content.get(key, default)` read: `total` (line 68-69), `current_page`
(line 70, defaulted to 1 at its use site), `last_page` (line 71),
`data` (line 72). A key absent from the JSON object is `none`. -/
structure ApiBody where
  total : Option Int
  current_page : Option Int
  last_page : Option Int
  data : Option (List Result)
  deriving DecidableEq

/-- Outcome of one `requests.get` call as seen by the surrounding `try` block:
either a response `(status_code, parsed body)`, or an exception from the
transport / JSON layer (`raiseErr`), which is caught by `except Exception`. -/
inductive NetOutcome where
  | response (status : Nat) (body : ApiBody)
  | raiseErr
  deriving DecidableEq

/-- Python `math.ceil(a / b)` for integer `a` and positive integer `b`
(line 84: `queries_per_thread = math.ceil(remaining_pages / NUMBER_OF_THREADS)`).
Ceiling division expressed through floor division of the negation. -/
def pyCeilDiv (a b : Int) : Int := -(Int.fdiv (-a) b)

/-- One worker's constructor arguments (lines 137-143): thread name and the
`start_page` / `end_page` bounds computed by `search`'s spawning loop. -/
structure ThreadRange where
  name : Nat
  start_page : Int
  end_page : Int
  deriving DecidableEq

/-- The spawning loop of `search` (lines 97-116): starting from
`thread_current_page`, each of the `k` remaining iterations computes
`thread_last_page = thread_current_page + queries_per_thread`, clamps it to
`last_page` when it exceeds it, records the `SearchThread` range, and resumes
from `thread_last_page + 1`. -/
def assignRangesAux (q last_page : Int) : Nat → Nat → Int → List ThreadRange
  | 0, _, _ => []
  | k + 1, i, cur =>
    let e0 := cur + q
    let e := if e0 > last_page then last_page else e0
    ⟨i, cur, e⟩ :: assignRangesAux q last_page k (i + 1) (e + 1)

/-- The full range assignment performed by `search` (lines 83-84, 97-116):
`remaining_pages = last_page - current_page`,
`queries_per_thread = ceil(remaining_pages / NUMBER_OF_THREADS)`, and the loop
starts at `current_page + 1` and runs `NUMBER_OF_THREADS` times. -/
def assignRanges (current_page last_page : Int) : List ThreadRange :=
  let remaining_pages := last_page - current_page
  let queries_per_thread := pyCeilDiv remaining_pages NUMBER_OF_THREADS
  assignRangesAux queries_per_thread last_page NUMBER_OF_THREADS 0 (current_page + 1)

/-- The pages a worker's loop actually fetches in a fault-free, uncancelled
run of its range: `while counter < self.end_page` (line 156) with
`counter = counter + 1` on success (line 192), i.e. the half-open interval
`[start_page, end_page)`. -/
def fetchedList (t : ThreadRange) : List Int :=
  (List.range (t.end_page - t.start_page).toNat).map (fun k => t.start_page + k)

/-- Concatenation of the pages fetched across a list of worker ranges. -/
def coveredPages : List ThreadRange → List Int
  | [] => []
  | t :: ts => fetchedList t ++ coveredPages ts

/-- The inclusive integer interval `[a, b]` as a list — this is the interval
`[current_page+1, last_page]` the claims state the workers must cover; it is
written from the claim, to be compared against `coveredPages` of the source's
assignment. -/
def intervalList (a b : Int) : List Int :=
  (List.range (b - a + 1).toNat).map (fun k => a + k)

/-- How `search` (lines 51-133) terminates, i.e. which `except` handler fired
or how the `try` body returned. `silentNoTotal` is the fall-through when the
body lacks a `"total"` key (line 68): the function simply returns.
`dispatched` carries the ranges of the spawned `SearchThread`s. -/
inductive SearchOutcome where
  | noQuery
  | invalidPage
  | quotaOverload
  | httpError (status : Nat)
  | genericError
  | silentNoTotal
  | dispatched (ranges : List ThreadRange)
  deriving DecidableEq

/-- `query is None or len(query) <= 0` (line 53). -/
def queryMissing : Option String → Bool
  | none => true
  | some q => decide (q.length ≤ 0)

/-- `page is None or page <= 0` (line 56). -/
def pageInvalid : Option Int → Bool
  | none => true
  | some p => decide (p ≤ 0)

/-- `search(query, page)` (lines 51-133), returning which outcome occurred and
the list of `Result`s appended to the global `RESULTS` during the call.
Validation happens before the network call, so the outcome on those paths is
independent of `net`. Then, mirroring the `try` body: `requests.get` raising
is the generic handler; `raise_for_status()` (line 61) raises `HTTPError` for
any 4xx/5xx status; the `status_code is 429` check (line 63) comes only after
it; a missing `"total"` returns silently; iterating a `None` `data` (line 74)
raises `TypeError` into the generic handler before anything is appended;
`int(None)` for a missing `last_page` (line 83) raises after the first page's
results were already appended. Otherwise the spawning loop runs (the
`estimated_minutes` print at line 120 divides by `len(PROXIES)` after all
threads were spawned, so it cannot undo the dispatch). -/
def search (query : Option String) (page : Option Int) (net : NetOutcome) :
    SearchOutcome × List Result :=
  if queryMissing query then (.noQuery, [])
  else if pageInvalid page then (.invalidPage, [])
  else
    match net with
    | .raiseErr => (.genericError, [])
    | .response status body =>
      if 400 ≤ status ∧ status < 600 then (.httpError status, [])
      else if status = 429 then (.quotaOverload, [])
      else
        match body.total with
        | none => (.silentNoTotal, [])
        | some _ =>
          match body.data with
          | none => (.genericError, [])
          | some items =>
            match body.last_page with
            | none => (.genericError, items)
            | some last_page =>
              (.dispatched (assignRanges (body.current_page.getD 1) last_page), items)

/-- Python `PROXIES.pop()`: remove and return the *last* element of the list,
or fail (`IndexError`) when the list is empty. -/
def pyPop (l : List String) : Option (String × List String) :=
  match l.reverse with
  | [] => none
  | x :: rev => some (x, rev.reverse)

/-- The mutable state of one `SearchThread.run` (lines 145-213) together with
the shared globals it touches: its page `counter`, its `proxy_fail_counter`,
the `proxy` it currently holds, and the shared `PROXIES` and `RESULTS` lists. -/
structure RunState where
  counter : Int
  proxy_fail_counter : Nat
  proxy : String
  pool : List String
  results : List Result
  deriving DecidableEq

/-- Number of proxy handles accounted for by one live worker's state:
the pool's contents plus the single proxy the worker holds. -/
def proxySum (s : RunState) : Nat := s.pool.length + 1

/-- The fetch-and-handle part of one loop iteration (lines 166-206), after any
proxy rotation: `requests.get` through the held proxy, `raise_for_status()`
(line 176, `HTTPError` for 4xx/5xx → handler at 201-203 increments
`proxy_fail_counter`), the dead `status_code is 429` check (line 178, handler
at 197-200 changes no state), then `content.get("data")`: iterating `None`
raises into the generic handler (line 204-206, increments the counter);
otherwise every record is appended to `RESULTS`, `counter` advances by one and
`proxy_fail_counter` resets to zero (lines 186-194). The returned `Bool`
records that `time.sleep(1)` (line 208) ran — it does on every path. -/
def runFetch (s : RunState) (net : NetOutcome) : RunState × Bool :=
  match net with
  | .raiseErr => ({ s with proxy_fail_counter := s.proxy_fail_counter + 1 }, true)
  | .response status body =>
    if 400 ≤ status ∧ status < 600 then
      ({ s with proxy_fail_counter := s.proxy_fail_counter + 1 }, true)
    else if status = 429 then
      (s, true)
    else
      match body.data with
      | none => ({ s with proxy_fail_counter := s.proxy_fail_counter + 1 }, true)
      | some items =>
        ({ s with results := s.results ++ items,
                  counter := s.counter + 1,
                  proxy_fail_counter := 0 }, true)

/-- One full iteration of the worker's `while` body (lines 161-208). When
`proxy_fail_counter == PROXY_FAIL_LIMIT` the worker first pops a fresh proxy
(lines 162-164) — WITHOUT releasing the one it holds; an empty pool makes the
pop raise `IndexError` into the generic handler (counter incremented, no fetch
this iteration). Then the fetch runs. -/
def runIteration (s : RunState) (net : NetOutcome) : RunState × Bool :=
  if s.proxy_fail_counter = PROXY_FAIL_LIMIT then
    match pyPop s.pool with
    | none => ({ s with proxy_fail_counter := s.proxy_fail_counter + 1 }, true)
    | some (p, rest) => runFetch { s with proxy := p, pool := rest } net
  else runFetch s net

/-- Result of running the worker loop: `finished` when the `while` condition
failed and line 211 appended the held proxy back to `PROXIES`; `outOfFuel`
when the observation budget ran out before the loop exited. -/
inductive RunResult where
  | finished (s : RunState)
  | outOfFuel (s : RunState)
  deriving DecidableEq

/-- The worker loop of `SearchThread.run` (lines 156-211):
`while not self.kill_received and counter < self.end_page`. The external
`kill_received` flag is the schedule `kill t` at the t-th loop-head check, and
`net t` is the network's answer to the t-th iteration's fetch. On exit the
held proxy is appended back to the pool (line 211). `fuel` bounds how many
iterations are observed. -/
def runLoop (end_page : Int) (kill : Nat → Bool) (net : Nat → NetOutcome) :
    Nat → Nat → RunState → RunResult
  | 0, _, s => .outOfFuel s
  | fuel + 1, t, s =>
    if kill t = true ∨ ¬ s.counter < end_page then
      .finished { s with pool := s.pool ++ [s.proxy] }
    else
      runLoop end_page kill net fuel (t + 1) (runIteration s (net t)).1

/-- `export(filepath)` (lines 216-220) writes `{"results": [...]}` holding one
serialized record per element of `RESULTS`, in order. -/
structure ExportDoc where
  results : List Result
  deriving DecidableEq

/-- The document `export` produces from the accumulated `RESULTS` list. -/
def exportResults (rs : List Result) : ExportDoc := ⟨rs⟩

/-- One iteration of `main`'s wait loop as observed externally: `live` is what
`has_live_threads()` returns at the loop head (line 239), `interrupt` whether
a `KeyboardInterrupt` arrived during that iteration's joins (line 248). -/
structure MainEvent where
  live : Bool
  interrupt : Bool
  deriving DecidableEq

/-- How `main` (lines 231-258) ends: `exported` when the `while` loop exits
normally and `export` runs (lines 255-258); `exitedWithoutExport` when
`counter == 2` with threads still alive makes `bye()` call `sys.exit(0)`
(lines 240-242, 227-228), skipping the export. -/
inductive MainOutcome where
  | exported
  | exitedWithoutExport
  deriving DecidableEq

/-- `main`'s wait loop (lines 237-253): at each head, if `has_live_threads()`
is false the loop exits and `export` runs; otherwise, if `counter == 2`,
`bye()` exits the process without exporting; otherwise the joins run and a
`KeyboardInterrupt` sets every worker's kill flag and increments `counter`.
`none` means the supplied event trace ended before the loop resolved. -/
def mainWait : Nat → List MainEvent → Option MainOutcome
  | _, [] => none
  | counter, e :: rest =>
    if e.live then
      if counter = 2 then some .exitedWithoutExport
      else mainWait (if e.interrupt then counter + 1 else counter) rest
    else some .exported

/-! Concrete inputs used by counterexamples and witnesses. -/

/-- A first-page body with all keys present (used at concrete inputs). -/
def sampleBody : ApiBody :=
  { total := some 100, current_page := some 1, last_page := some 1,
    data := some [⟨"t", "l", "d"⟩] }

/-- A body whose JSON object lacks the `"total"` key. -/
def noTotalBody : ApiBody :=
  { total := none, current_page := some 1, last_page := some 4, data := some [] }

/-- A worker state with a fresh failure counter holding proxy `"p"`. -/
def freshState : RunState :=
  { counter := 7, proxy_fail_counter := 0, proxy := "p", pool := ["q"], results := [] }

/-- A worker state that has just reached the fail limit, holding proxy `"b"`,
with one proxy `"a"` left in the pool. -/
def rotationState : RunState :=
  { counter := 3, proxy_fail_counter := PROXY_FAIL_LIMIT, proxy := "b",
    pool := ["a"], results := [] }

/-- A worker state positioned at the start of an empty range `(2, 1)`. -/
def emptyRangeState : RunState :=
  { counter := 2, proxy_fail_counter := 0, proxy := "p0", pool := [], results := [] }

/-- A kill schedule that is never set. -/
def neverKill : Nat → Bool := fun _ => false

/-- A kill schedule that is set from the start. -/
def alwaysKill : Nat → Bool := fun _ => true

/-- A network schedule whose every fetch raises. -/
def errNet : Nat → NetOutcome := fun _ => .raiseErr

/-- A wait-loop trace: two interrupted rounds with live workers, then a third
head check that still sees a live worker. -/
def forcedTrace : List MainEvent := [⟨true, true⟩, ⟨true, true⟩, ⟨true, false⟩]

/-! ## Helper lemmas -/

/-- `PROXIES.pop()` removes exactly one element: the remainder is one shorter. -/
theorem pyPop_length {l rest : List String} {x : String}
    (h : pyPop l = some (x, rest)) : rest.length + 1 = l.length := by
  unfold pyPop at h
  cases hl : l.reverse with
  | nil => rw [hl] at h; cases h
  | cons a rev =>
    rw [hl] at h
    have hlen : l.length = rev.length + 1 := by
      have h2 := congrArg List.length hl
      simp at h2
      omega
    simp only [Option.some.injEq, Prod.mk.injEq] at h
    obtain ⟨-, hrest⟩ := h
    subst hrest
    simp [hlen]

/-- `PROXIES.pop()` succeeds on a non-empty list. -/
theorem pyPop_ne_nil {l : List String} (h : l ≠ []) :
    ∃ x rest, pyPop l = some (x, rest) := by
  unfold pyPop
  cases hl : l.reverse with
  | nil => exact absurd (List.reverse_eq_nil_iff.mp hl) h
  | cons a rev => exact ⟨a, rev.reverse, rfl⟩

/-- The fetch-and-handle part of an iteration never touches the proxy pool. -/
theorem runFetch_pool (s : RunState) (net : NetOutcome) :
    (runFetch s net).1.pool = s.pool := by
  cases net with
  | raiseErr => rfl
  | response status body =>
    simp only [runFetch]
    split
    · rfl
    · split
      · rfl
      · cases body.data with
        | none => rfl
        | some items => rfl

/-- On a non-4xx/5xx response carrying a `data` array, the fetch part appends
the parsed records, advances the cursor, resets the failure counter, and
sleeps. -/
theorem runFetch_success (s : RunState) (status : Nat) (body : ApiBody)
    (items : List Result) (hd : body.data = some items)
    (hst : ¬ (400 ≤ status ∧ status < 600)) :
    runFetch s (.response status body) =
      ({ s with results := s.results ++ items, counter := s.counter + 1,
                proxy_fail_counter := 0 }, true) := by
  have h429 : ¬ status = 429 := by
    intro h
    exact hst (by omega)
  simp only [runFetch]
  rw [if_neg hst, if_neg h429, hd]

/-- The spawning loop always emits exactly as many ranges as it has
iterations left. -/
theorem assignRangesAux_length (q L : Int) :
    ∀ (k i : Nat) (cur : Int), (assignRangesAux q L k i cur).length = k := by
  intro k
  induction k with
  | zero => intro i cur; rfl
  | succ n ih =>
    intro i cur
    simp only [assignRangesAux, List.length_cons, ih]

/-- With `queries_per_thread = 0` and the running start already past
`last_page`, every emitted range is empty (`end_page < start_page`). -/
theorem assignRangesAux_zero_ranges (L : Int) :
    ∀ (k i : Nat) (cur : Int), L < cur →
      ∀ t, t ∈ assignRangesAux 0 L k i cur → t.end_page < t.start_page := by
  intro k
  induction k with
  | zero => intro i cur _ t ht; cases ht
  | succ n ih =>
    intro i cur hcur t ht
    simp only [assignRangesAux] at ht
    rw [if_pos (show cur + 0 > L by omega)] at ht
    rcases List.mem_cons.mp ht with rfl | h
    · exact hcur
    · exact ih (i + 1) (L + 1) (by omega) t h

/-! ## Claims -/

/-- Claim C1 (code_bug): at `current_page = 1`, `last_page = 4` the five
assigned ranges are `(2,3), (4,4), (5,4), (5,4), (5,4)`, and because each
worker's loop runs `while counter < end_page`, the pages actually fetched
across all workers are exactly `[2]` — not the claimed interval
`[current_page+1, last_page] = [2, 3, 4]`. Each range's final page (and in
particular `last_page`) is silently skipped. -/
theorem C1_partition_coverage_gap :
    assignRanges 1 4 = [⟨0, 2, 3⟩, ⟨1, 4, 4⟩, ⟨2, 5, 4⟩, ⟨3, 5, 4⟩, ⟨4, 5, 4⟩] ∧
    coveredPages (assignRanges 1 4) = [2] ∧
    intervalList 2 4 = [2, 3, 4] ∧
    coveredPages (assignRanges 1 4) ≠ intervalList 2 4 := by
  decide

/-- Claim C2 counterexample: on a successful first fetch with
`current_page = last_page = 1`, `search` still dispatches
`NUMBER_OF_THREADS = 5` workers (the spawning loop runs unconditionally for
every `i in range(5)`), refuting "zero workers are spawned". -/
theorem C2_spawns_five_workers_cex :
    (search (some "test") (some 1) (.response 200 sampleBody)).1 =
      .dispatched (assignRanges 1 1) ∧
    (assignRanges 1 1).length = 5 ∧ (assignRanges 1 1).length ≠ 0 := by
  decide

/-- Claim C2 (amended): when `last_page = current_page`, five workers are
always spawned, but each receives the empty range `(current_page+1,
current_page)`: its loop fetches nothing and exits at once releasing its
proxy, so the export document contains exactly the first page's items. -/
theorem C2_workers_idle : ∀ c : Int,
    (assignRanges c c).length = NUMBER_OF_THREADS ∧
    (∀ t, t ∈ assignRanges c c → fetchedList t = []) ∧
    (∀ (t : ThreadRange) (kill : Nat → Bool) (net : Nat → NetOutcome)
        (fuel time : Nat) (s : RunState),
      t ∈ assignRanges c c → s.counter = t.start_page →
      runLoop t.end_page kill net (fuel + 1) time s =
        .finished { s with pool := s.pool ++ [s.proxy] }) ∧
    (∀ first : List Result, (exportResults first).results = first) := by
  intro c
  have hq : pyCeilDiv (c - c) (NUMBER_OF_THREADS : Int) = 0 := by
    simp [pyCeilDiv, sub_self, Int.zero_fdiv]
  have hmem : ∀ t, t ∈ assignRanges c c → t.end_page < t.start_page := by
    intro t ht
    simp only [assignRanges] at ht
    rw [hq] at ht
    exact assignRangesAux_zero_ranges c NUMBER_OF_THREADS 0 (c + 1) (by omega) t ht
  refine ⟨?_, ?_, ?_, ?_⟩
  · simp only [assignRanges]
    exact assignRangesAux_length _ _ _ _ _
  · intro t ht
    have h := hmem t ht
    unfold fetchedList
    have hz : (t.end_page - t.start_page).toNat = 0 := by omega
    rw [hz]
    rfl
  · intro t kill net fuel time s ht hc
    have h := hmem t ht
    simp only [runLoop]
    rw [if_pos (Or.inr (by omega))]
  · intro first
    rfl

/-- Claim C2 witness: the amended statement applied at `c = 1` with the
concrete empty range `(2, 1)` and a worker positioned at page 2. -/
theorem C2_workers_idle_witness :
    (⟨0, 2, 1⟩ : ThreadRange) ∈ assignRanges 1 1 ∧
    runLoop (1 : Int) neverKill errNet (0 + 1) 0 emptyRangeState =
      .finished { emptyRangeState with
                  pool := emptyRangeState.pool ++ [emptyRangeState.proxy] } :=
  ⟨by decide,
   (C2_workers_idle 1).2.2.1 ⟨0, 2, 1⟩ neverKill errNet 0 0 emptyRangeState
     (by decide) rfl⟩

/-- Claim C3 counterexample: a worker at the fail limit holding proxy `"b"`
with `["a"]` pooled (checked-out + pooled = 2) rotates: it pops `"a"` without
releasing `"b"`, leaving checked-out + pooled = 1. The rotation checkout does
not preserve the handle count. -/
theorem C3_rotation_shrinks_pool_cex :
    proxySum rotationState = 2 ∧
    proxySum (runIteration rotationState NetOutcome.raiseErr).1 = 1 ∧
    (runIteration rotationState NetOutcome.raiseErr).1.proxy = "a" ∧
    (runIteration rotationState NetOutcome.raiseErr).1.pool = [] := by
  decide

/-- Claim C3 (amended): the initial checkout (`PROXIES.pop()`) and the exit
release (`PROXIES.append(proxy)`) preserve the count of handles (held plus
pooled), and so does every non-rotation iteration; but a rotation iteration
(failure counter at `PROXY_FAIL_LIMIT` with a non-empty pool) decreases
held-plus-pooled by exactly one, because the previously held proxy is dropped
without being released. -/
theorem C3_proxy_accounting :
    (∀ (pool rest : List String) (p : String),
        pyPop pool = some (p, rest) → rest.length + 1 = pool.length) ∧
    (∀ s : RunState, (s.pool ++ [s.proxy]).length = proxySum s) ∧
    (∀ (s : RunState) (net : NetOutcome),
        s.proxy_fail_counter ≠ PROXY_FAIL_LIMIT →
        proxySum (runIteration s net).1 = proxySum s) ∧
    (∀ (s : RunState) (net : NetOutcome),
        s.proxy_fail_counter = PROXY_FAIL_LIMIT → s.pool ≠ [] →
        proxySum (runIteration s net).1 + 1 = proxySum s) := by
  refine ⟨?_, ?_, ?_, ?_⟩
  · intro pool rest p h
    exact pyPop_length h
  · intro s
    simp [proxySum]
  · intro s net h
    unfold runIteration
    rw [if_neg h]
    simp [proxySum, runFetch_pool]
  · intro s net h hp
    unfold runIteration
    rw [if_pos h]
    obtain ⟨x, rest, hx⟩ := pyPop_ne_nil hp
    have hlen := pyPop_length hx
    rw [hx]
    simp only [proxySum, runFetch_pool]
    omega

/-- Claim C3 witness: the rotation conjunct applied at the concrete
at-the-limit state. -/
theorem C3_proxy_accounting_witness :
    rotationState.proxy_fail_counter = PROXY_FAIL_LIMIT ∧
    rotationState.pool ≠ [] ∧
    proxySum (runIteration rotationState NetOutcome.raiseErr).1 + 1 =
      proxySum rotationState :=
  ⟨rfl, by decide,
   C3_proxy_accounting.2.2.2 rotationState NetOutcome.raiseErr rfl (by decide)⟩

/-- Claim C4 (code_bug): a worker iteration whose fetch returns status 429 is
handled by the `except HTTPError` branch (because `raise_for_status()` runs
before the dead `status_code is 429` check): the consecutive-failure counter
IS incremented (0 becomes 1), contradicting the claimed QuotaFault handling;
the cursor does not advance and the pacing sleep still happens. -/
theorem C4_quota_increments_failures :
    (runIteration freshState (.response 429 sampleBody)).1.proxy_fail_counter = 1 ∧
    freshState.proxy_fail_counter = 0 ∧
    (runIteration freshState (.response 429 sampleBody)).1.counter =
      freshState.counter ∧
    (runIteration freshState (.response 429 sampleBody)).2 = true := by
  decide

/-- Claim C5 counterexample: a run in which two interrupt rounds elapse with
workers still alive and a third head check still sees a live worker ends in
`bye()` / `sys.exit(0)` — a termination path on which the final export is NOT
performed. -/
theorem C5_forced_exit_skips_export_cex :
    mainWait 0 forcedTrace = some .exitedWithoutExport ∧
    some MainOutcome.exitedWithoutExport ≠ some MainOutcome.exported := by
  decide

/-- Claim C5 (amended): the export runs exactly on the normal termination
path — whenever `has_live_threads()` is false at a loop head the run ends in
`exported`; but whenever the interrupt counter has reached 2 and a head check
still sees a live worker, the run ends in `exitedWithoutExport`. -/
theorem C5_export_only_on_normal_exit :
    (∀ (e : MainEvent) (rest : List MainEvent) (counter : Nat),
        e.live = false → mainWait counter (e :: rest) = some .exported) ∧
    (∀ (e : MainEvent) (rest : List MainEvent),
        e.live = true → mainWait 2 (e :: rest) = some .exitedWithoutExport) := by
  constructor
  · intro e rest counter h
    simp [mainWait, h]
  · intro e rest h
    simp [mainWait, h]

/-- Claim C5 witness: both conjuncts of the amended statement at concrete
one-event traces. -/
theorem C5_export_only_on_normal_exit_witness :
    (⟨false, false⟩ : MainEvent).live = false ∧
    mainWait 0 [⟨false, false⟩] = some .exported ∧
    (⟨true, false⟩ : MainEvent).live = true ∧
    mainWait 2 [⟨true, false⟩] = some .exitedWithoutExport :=
  ⟨rfl, C5_export_only_on_normal_exit.1 ⟨false, false⟩ [] 0 rfl,
   rfl, C5_export_only_on_normal_exit.2 ⟨true, false⟩ [] rfl⟩

/-- Claim C6 (code_bug): a first fetch returning status 429 makes `search`
end in the `except HTTPError` handler, not in `QuotaOverloadException`
(`raise_for_status()` at line 61 fires before the check at line 63, which is
dead code); the run still aborts with no workers spawned and no results
appended, but the failure is classified as a generic HTTP error. -/
theorem C6_first_fetch_429_is_http_error :
    search (some "test") (some 1) (.response 429 sampleBody) =
      (.httpError 429, []) ∧
    SearchOutcome.httpError 429 ≠ SearchOutcome.quotaOverload := by
  decide

/-- Claim C7 (confirmed): a missing or empty query fails with
`NoQueryException` and a page below 1 fails with `InvalidPageException`; in
both cases the outcome is independent of the network (`net` is arbitrary —
validation precedes the request), no result is appended and no worker range
is produced. -/
theorem C7_input_validation :
    (∀ (page : Option Int) (net : NetOutcome),
        search none page net = (.noQuery, [])) ∧
    (∀ (q : String) (page : Option Int) (net : NetOutcome), q.length = 0 →
        search (some q) page net = (.noQuery, [])) ∧
    (∀ (q : String) (p : Int) (net : NetOutcome), q.length ≠ 0 → p < 1 →
        search (some q) (some p) net = (.invalidPage, [])) := by
  refine ⟨?_, ?_, ?_⟩
  · intro page net
    rfl
  · intro q page net h
    simp [search, queryMissing, h]
  · intro q p net hq hp
    have h1 : queryMissing (some q) = false := by
      unfold queryMissing
      simp only [decide_eq_false_iff_not]
      omega
    have h2 : pageInvalid (some p) = true := by
      unfold pageInvalid
      simp only [decide_eq_true_eq]
      omega
    simp [search, h1, h2]

/-- Claim C7 witness: the empty-query and page-0 conjuncts at concrete
inputs. -/
theorem C7_input_validation_witness :
    ("" : String).length = 0 ∧
    search (some "") (some 1) NetOutcome.raiseErr = (.noQuery, []) ∧
    ("q" : String).length ≠ 0 ∧ (0 : Int) < 1 ∧
    search (some "q") (some 0) NetOutcome.raiseErr = (.invalidPage, []) :=
  ⟨rfl, C7_input_validation.2.1 "" (some 1) NetOutcome.raiseErr rfl,
   by decide, by decide,
   C7_input_validation.2.2 "q" 0 NetOutcome.raiseErr (by decide) (by decide)⟩

/-- Claim C8 (confirmed): an iteration whose fetch succeeds (status not
4xx/5xx, body carrying a `data` array) appends all parsed records to the
shared results, advances the cursor by exactly one, resets the failure
counter to zero, and performs the pacing sleep — also when the iteration
began with a proxy rotation (the fail-limit hypothesis guards the rotation
pop against an empty pool, where the fetch would not happen). -/
theorem C8_success_iteration (s : RunState) (status : Nat) (body : ApiBody)
    (items : List Result) (hd : body.data = some items)
    (hst : ¬ (400 ≤ status ∧ status < 600))
    (hrot : s.proxy_fail_counter = PROXY_FAIL_LIMIT → s.pool ≠ []) :
    (runIteration s (.response status body)).1.counter = s.counter + 1 ∧
    (runIteration s (.response status body)).1.proxy_fail_counter = 0 ∧
    (runIteration s (.response status body)).1.results = s.results ++ items ∧
    (runIteration s (.response status body)).2 = true := by
  unfold runIteration
  by_cases hf : s.proxy_fail_counter = PROXY_FAIL_LIMIT
  · rw [if_pos hf]
    obtain ⟨x, rest, hx⟩ := pyPop_ne_nil (hrot hf)
    rw [hx]
    simp only [runFetch_success _ _ _ _ hd hst]
    exact ⟨trivial, trivial, trivial, trivial⟩
  · rw [if_neg hf, runFetch_success _ _ _ _ hd hst]
    exact ⟨rfl, rfl, rfl, rfl⟩

/-- Claim C8 witness: a successful 200 iteration from a fresh state. -/
theorem C8_success_iteration_witness :
    sampleBody.data = some [⟨"t", "l", "d"⟩] ∧
    ¬ ((400 : Nat) ≤ 200 ∧ (200 : Nat) < 600) ∧
    (runIteration freshState (.response 200 sampleBody)).1.counter =
      freshState.counter + 1 ∧
    (runIteration freshState (.response 200 sampleBody)).1.proxy_fail_counter = 0 ∧
    (runIteration freshState (.response 200 sampleBody)).1.results =
      freshState.results ++ [⟨"t", "l", "d"⟩] ∧
    (runIteration freshState (.response 200 sampleBody)).2 = true := by
  refine ⟨rfl, by decide, ?_⟩
  exact C8_success_iteration freshState 200 sampleBody [⟨"t", "l", "d"⟩] rfl
    (by decide) (by decide)

/-- Claim C9 (confirmed): if the externally set kill flag is observed true at
a loop-head check, the worker exits its loop right there — no further
iteration (hence no further fetch) runs — and the proxy it currently holds is
appended back to the pool. The flag is an external input the loop never
writes, mirroring the source, where `kill_received` is assigned only in
`__init__` and by `main`. -/
theorem C9_kill_flag_exits_loop (end_page : Int) (kill : Nat → Bool)
    (net : Nat → NetOutcome) (fuel t : Nat) (s : RunState)
    (h : kill t = true) :
    runLoop end_page kill net (fuel + 1) t s =
      .finished { s with pool := s.pool ++ [s.proxy] } := by
  simp only [runLoop]
  rw [if_pos (Or.inl h)]

/-- Claim C9 witness: a killed-from-the-start worker exits immediately and
releases its proxy. -/
theorem C9_kill_flag_exits_loop_witness :
    alwaysKill 0 = true ∧
    runLoop 99 alwaysKill errNet (0 + 1) 0 freshState =
      .finished { freshState with pool := freshState.pool ++ [freshState.proxy] } :=
  ⟨rfl, C9_kill_flag_exits_loop 99 alwaysKill errNet 0 0 freshState rfl⟩

/-- Claim C10 (confirmed): a first fetch that succeeds (status not 4xx/5xx)
but whose JSON body lacks the `"total"` key makes `search` return normally as
a silent no-op: outcome `silentNoTotal`, no results appended, no worker
ranges produced, no handler fired. -/
theorem C10_missing_total_silent (q : String) (p : Int) (status : Nat)
    (body : ApiBody) (hq : q.length ≠ 0) (hp : 1 ≤ p)
    (hst : ¬ (400 ≤ status ∧ status < 600)) (ht : body.total = none) :
    search (some q) (some p) (.response status body) = (.silentNoTotal, []) := by
  have h1 : queryMissing (some q) = false := by
    unfold queryMissing
    simp only [decide_eq_false_iff_not]
    omega
  have h2 : pageInvalid (some p) = false := by
    unfold pageInvalid
    simp only [decide_eq_false_iff_not]
    omega
  have h429 : ¬ status = 429 := by
    intro h
    exact hst (by omega)
  simp [search, h1, h2, hst, h429, ht]

/-- Claim C10 witness: a 200 response missing `"total"` at a concrete query. -/
theorem C10_missing_total_silent_witness :
    ("test" : String).length ≠ 0 ∧ (1 : Int) ≤ 1 ∧
    ¬ ((400 : Nat) ≤ 200 ∧ (200 : Nat) < 600) ∧ noTotalBody.total = none ∧
    search (some "test") (some 1) (.response 200 noTotalBody) =
      (.silentNoTotal, []) :=
  ⟨by decide, by decide, by decide, rfl,
   C10_missing_total_silent "test" 1 200 noTotalBody (by decide) (by decide)
     (by decide) rfl⟩

end DarkSearch
